import Mathlib

/-!
Verification of the omtobe-mvp cycle and brake-trigger logic.

The development shallowly embeds the code of the repository:

* `frontend/src/api/mock-client.ts` (class `OmtobeMockClient`): timestamps are
  embedded as integer epoch milliseconds, JavaScript `Math.floor(a / b)` on an
  integer quotient is `Int.fdiv`, and the JavaScript remainder operator `%`
  (which truncates toward zero) is `Int.tmod`.  The value of `Math.random()`
  is passed in explicitly as a rational argument.
* `frontend/src/App.tsx` (the `AppContent` auto-trigger effect) together with
  the demo context (`DemoContext`, the `setHRV` and `setCalendarEvent`
  simulators).  All numeric values produced by those sources are integers, so
  the HRV fields are embedded as `Int`.
* The backend state machine (`backend/state_machine.py`), which the docs and
  the mock client simulate, is not part of the source tree; the definitions
  for it below are marked `Modelled from the spec:` and follow the design
  document wording.
-/

/-- Phase of the 7-day cycle; the string constants of `mock-client.ts` are
`TOTAL_SILENCE`, `INTERVENTION_LOGIC` and `REFLECTION`. -/
inductive Phase
  | totalSilence
  | interventionLogic
  | reflection
deriving DecidableEq

/-- The string name used for each phase in `mock-client.ts`. -/
def Phase.name : Phase → String
  | .totalSilence => "TOTAL_SILENCE"
  | .interventionLogic => "INTERVENTION_LOGIC"
  | .reflection => "REFLECTION"

/-- `1000 * 60 * 60 * 24`, the divisor in `OmtobeMockClient.getCurrentDay`. -/
def msPerDay : Int := 1000 * 60 * 60 * 24

/-- `OmtobeMockClient.getCurrentDay`:
`daysDiff = Math.floor((now - cycleStart) / msPerDay); return (daysDiff % 7) + 1`. -/
def getCurrentDay (nowMs cycleStartMs : Int) : Int :=
  Int.tmod (Int.fdiv (nowMs - cycleStartMs) msPerDay) 7 + 1

/-- The day-to-phase mapping of `OmtobeMockClient.getCurrentPhase`:
`day <= 2 → TOTAL_SILENCE; day <= 5 → INTERVENTION_LOGIC; else REFLECTION`. -/
def phaseOfDay (day : Int) : Phase :=
  if day ≤ 2 then .totalSilence
  else if day ≤ 5 then .interventionLogic
  else .reflection

/-- `OmtobeMockClient.getCurrentPhase`. -/
def getCurrentPhase (nowMs cycleStartMs : Int) : Phase :=
  phaseOfDay (getCurrentDay nowMs cycleStartMs)

/-- The two decision values `Proceed` and `Delay`. -/
inductive DecisionType
  | proceed
  | delay
deriving DecidableEq

/-- The wire string for a decision value. -/
def DecisionType.str : DecisionType → String
  | .proceed => "Proceed"
  | .delay => "Delay"

/-- The three reflection responses `Yes`, `No` and `Skip`. -/
inductive ReflectionResponse
  | yes
  | no
  | skip
deriving DecidableEq

/-- The record pushed into the `omtobe_decisions` array in localStorage by
`OmtobeMockClient.recordDecision`: it has exactly the two fields
`timestamp` and `decision_type`. -/
structure StoredDecision where
  timestamp : Int
  decision_type : DecisionType
deriving DecidableEq

/-- The record pushed into the `omtobe_reflections` array in localStorage by
`OmtobeMockClient.recordReflection`: fields `timestamp` and `response`. -/
structure StoredReflection where
  timestamp : Int
  response : ReflectionResponse
deriving DecidableEq

/-- The mutable state of `OmtobeMockClient` (instance fields plus the
localStorage arrays it owns).  The `userId` string plays no role in any
claim and is omitted. -/
structure MockState where
  cycleStartMs : Int
  coolingPeriodActive : Bool
  lastBrakeTime : Int
  decisions : List StoredDecision
  reflections : List StoredReflection
deriving DecidableEq

/-- The constructor state of `OmtobeMockClient` with a stored cycle start:
`coolingPeriodActive = false`, `lastBrakeTime = 0`, empty logs. -/
def initMockState (cycleStartMs : Int) : MockState :=
  { cycleStartMs := cycleStartMs
    coolingPeriodActive := false
    lastBrakeTime := 0
    decisions := []
    reflections := [] }

/-- `OmtobeMockClient.setUserId` stores the user id and sets
`omtobe_cycle_start` to the current time. -/
def setUserId (st : MockState) (nowMs : Int) : MockState :=
  { st with cycleStartMs := nowMs }

/-- `OmtobeMockClient.createUser` delegates to `setUserId`. -/
def createUser (st : MockState) (nowMs : Int) : MockState :=
  setUserId st nowMs

/-- Body of the `StateCheckResponse` of `mock-client.ts`.  The ISO timestamp
string of the response is represented by `nowMs` itself and elided. -/
structure StateCheckResponse where
  should_display : Bool
  event_id : Option String
  current_day : Int
  phase : Phase
  hrv_current : ℚ
  hrv_baseline_mean : Int
deriving DecidableEq

/-- `OmtobeMockClient.checkBrakeScreen`.  The two `Math.random()` draws are
explicit arguments: `rand` decides the display (`rand < 0.3`) and `rand2`
perturbs the reported HRV (`45 + rand2 * 15`). -/
def checkBrakeScreen (st : MockState) (nowMs : Int) (rand rand2 : ℚ) :
    StateCheckResponse × MockState :=
  let day := getCurrentDay nowMs st.cycleStartMs
  let phase := phaseOfDay day
  let shouldDisplay : Bool :=
    decide (phase = Phase.interventionLogic) && decide (rand < mkRat 3 10)
  ({ should_display := shouldDisplay
     event_id := if shouldDisplay then some "mock_event_001" else none
     current_day := day
     phase := phase
     hrv_current := 45 + rand2 * 15
     hrv_baseline_mean := 60 },
   if shouldDisplay then { st with lastBrakeTime := nowMs } else st)

/-- Body of the `DecisionResponse` of `mock-client.ts`. -/
structure DecisionResponse where
  status : String
  decision_type : DecisionType
  timestamp : Int
  next_action : String
  re_trigger_time : Option Int
deriving DecidableEq

/-- `OmtobeMockClient.recordDecision`: builds the response (with
`re_trigger_time = now + 20 * 60 * 1000` exactly when the decision is
`Delay`) and appends a `StoredDecision` to the log. -/
def recordDecision (st : MockState) (decisionType : DecisionType) (nowMs : Int) :
    DecisionResponse × MockState :=
  ({ status := "decision_recorded"
     decision_type := decisionType
     timestamp := nowMs
     next_action :=
       if decisionType = DecisionType.delay then "wait_20_mins"
       else "proceed_with_decision"
     re_trigger_time :=
       if decisionType = DecisionType.delay then some (nowMs + 20 * 60 * 1000)
       else none },
   { st with
      decisions := st.decisions ++ [{ timestamp := nowMs, decision_type := decisionType }] })

/-- A JSON scalar, used to describe the literal objects the mock client
persists. -/
inductive JsonValue
  | str (s : String)
  | num (n : Int)
deriving DecidableEq

/-- The literal object pushed into the `omtobe_decisions` localStorage array:
`{ timestamp: decision.timestamp, decision_type: decisionType }`.  The ISO
timestamp string is represented by its epoch milliseconds. -/
def storedDecisionObject (decisionType : DecisionType) (nowMs : Int) :
    List (String × JsonValue) :=
  [("timestamp", JsonValue.num nowMs),
   ("decision_type", JsonValue.str decisionType.str)]

/-- The `cycle_reset` part of the `ReflectionResponse` of `mock-client.ts`. -/
structure CycleReset where
  status : String
  new_cycle_start : Int
  current_day : Int
deriving DecidableEq

/-- Body of the `ReflectionResponse` of `mock-client.ts`. -/
structure ReflectionResponseMsg where
  status : String
  response : ReflectionResponse
  timestamp : Int
  cycle_reset : CycleReset
deriving DecidableEq

/-- `OmtobeMockClient.recordReflection`: builds the response, appends a
`StoredReflection`, and resets the cycle start to `now`. -/
def recordReflection (st : MockState) (response : ReflectionResponse) (nowMs : Int) :
    ReflectionResponseMsg × MockState :=
  ({ status := "reflection_recorded"
     response := response
     timestamp := nowMs
     cycle_reset :=
       { status := "cycle_reset_initiated"
         new_cycle_start := nowMs
         current_day := 1 } },
   { st with
      reflections := st.reflections ++ [{ timestamp := nowMs, response := response }]
      cycleStartMs := nowMs })

/-- The `state` part of the `StateResponse` of `mock-client.ts`.  Note that
`decision_locked` is the literal `false` in `getState`. -/
structure StateResponse where
  current_day : Int
  cycle_start_date : Int
  cooling_period_active : Bool
  decision_locked : Bool
  hrv_baseline_mean : Int
  hrv_baseline_std_dev : Int
  phase : Phase
deriving DecidableEq

/-- `OmtobeMockClient.getState`. -/
def getState (st : MockState) (nowMs : Int) : StateResponse :=
  { current_day := getCurrentDay nowMs st.cycleStartMs
    cycle_start_date := st.cycleStartMs
    cooling_period_active := st.coolingPeriodActive
    decision_locked := false
    hrv_baseline_mean := 60
    hrv_baseline_std_dev := 5
    phase := getCurrentPhase nowMs st.cycleStartMs }

/-- One state-mutating call on the mock client. -/
inductive ClientOp
  | createUser (nowMs : Int)
  | checkBrakeScreen (nowMs : Int) (rand rand2 : ℚ)
  | recordDecision (d : DecisionType) (nowMs : Int)
  | recordReflection (r : ReflectionResponse) (nowMs : Int)

/-- The state transition of a single client call. -/
def stepClient (st : MockState) : ClientOp → MockState
  | .createUser n => createUser st n
  | .checkBrakeScreen n r r2 => (checkBrakeScreen st n r r2).2
  | .recordDecision d n => (recordDecision st d n).2
  | .recordReflection r n => (recordReflection st r n).2

/-- Runs a sequence of client calls from the constructor state. -/
def runClient (cycleStartMs : Int) (ops : List ClientOp) : MockState :=
  ops.foldl stepClient (initMockState cycleStartMs)

/-- Risk level of a demo calendar event (`DemoContext.tsx`). -/
inductive RiskLevel
  | high
  | medium
  | low
deriving DecidableEq

/-- HRV status of the demo HRV data (`DemoContext.tsx`). -/
inductive HRVStatus
  | normal
  | elevated
  | critical
deriving DecidableEq

/-- `HRVData` of `DemoContext.tsx`.  Every value the demo simulator produces
is an integer (`change` is a percentage). -/
structure HRVData where
  current : Int
  baseline : Int
  change : Int
  status : HRVStatus
deriving DecidableEq

/-- The four presets accepted by `DemoContext.setHRV`. -/
inductive HRVPreset
  | normal
  | stressed
  | critical
  | panic
deriving DecidableEq

/-- `DemoContext.setHRV`: the HRV data installed for each preset
(baseline is always 50). -/
def setHRVData : HRVPreset → HRVData
  | .stressed => { current := 45, baseline := 50, change := -10, status := .elevated }
  | .critical => { current := 40, baseline := 50, change := -20, status := .critical }
  | .panic => { current := 35, baseline := 50, change := -30, status := .critical }
  | .normal => { current := 50, baseline := 50, change := 0, status := .normal }

/-- The `initialHRV` constant of `DemoContext.tsx`. -/
def initialHRV : HRVData :=
  { current := 50, baseline := 50, change := 0, status := .normal }

/-- `CalendarEvent` of `DemoContext.tsx`.  The formatted start and end time
strings are opaque here. -/
structure CalendarEvent where
  id : String
  title : String
  startTime : String
  endTime : String
  riskLevel : RiskLevel
deriving DecidableEq

/-- The four event choices accepted by `DemoContext.setCalendarEvent`. -/
inductive EventChoice
  | noEvent
  | board
  | negotiation
  | highstakes
deriving DecidableEq

/-- `DemoContext.setCalendarEvent`: the active-event list installed for each
choice.  Every event it installs carries `riskLevel: high`. -/
def setCalendarEvents (choice : EventChoice) (startStr endStr : String) :
    List CalendarEvent :=
  match choice with
  | .board =>
    [{ id := "1", title := "Board Meeting", startTime := startStr,
       endTime := endStr, riskLevel := .high }]
  | .negotiation =>
    [{ id := "2", title := "Contract Negotiation", startTime := startStr,
       endTime := endStr, riskLevel := .high }]
  | .highstakes =>
    [{ id := "3", title := "! High-Stakes Decision", startTime := startStr,
       endTime := endStr, riskLevel := .high }]
  | .noEvent => []

/-- The screens of `App.tsx`. -/
inductive Screen
  | void
  | brake
  | reflection
  | onboarding
deriving DecidableEq

/-- The condition of the auto-trigger effect of `AppContent` in `App.tsx`
(the brake screen is scheduled exactly when this guard holds):
`demoState.isDemoMode && demoState.hrv.change <= -20 &&
demoState.activeEvents.length > 0 && demoState.currentDay >= 3 &&
demoState.currentDay <= 5 && appState.screen === 'void'`. -/
def autoTriggerBrake (isDemoMode : Bool) (hrv : HRVData)
    (activeEvents : List CalendarEvent) (currentDay : Int) (screen : Screen) : Bool :=
  isDemoMode && decide (hrv.change ≤ -20) && decide (0 < activeEvents.length)
    && decide (3 ≤ currentDay) && decide (currentDay ≤ 5)
    && decide (screen = Screen.void)

/-- Modelled from the spec: the per-user `CycleState` of the backend
CycleStateMachine (`backend/state_machine.py`, which is not part of the
source tree; only its documentation and its frontend callers are). -/
structure CycleState where
  cycleStartTime : Int
  coolingPeriodActive : Bool
  coolingPeriodStart : Int
  decisionLockedForEvent : Bool
  lastBrakeDisplayTime : Int
deriving DecidableEq

/-- Modelled from the spec: a vitals reading with `current` and `baseline`
numeric fields (HRV milliseconds, embedded as integers). -/
structure VitalsReading where
  current : Int
  baseline : Int
deriving DecidableEq

/-- Modelled from the spec: a calendar-like event flagged `highStakes`. -/
structure SpecEvent where
  id : String
  startTime : Int
  highStakes : Bool
deriving DecidableEq

/-- Modelled from the spec: the result of `evaluateTrigger`. -/
structure TriggerResult where
  shouldDisplay : Bool
  triggeringEventId : Option String
deriving DecidableEq

/-- The 20-minute cooling period in milliseconds. -/
def coolingPeriodMs : Int := 20 * 60 * 1000

/-- Modelled from the spec: the `currentDay` derivation
`floor((now - cycleStartTime) / 1 day) mod 7`, then `+ 1`, with the
ClockSkew clamp to day 1 required by the error-handling design. -/
def specCurrentDay (st : CycleState) (nowMs : Int) : Int :=
  if nowMs < st.cycleStartTime then 1
  else Int.emod (Int.fdiv (nowMs - st.cycleStartTime) msPerDay) 7 + 1

/-- Modelled from the spec: the deterministic priority order over events,
earliest `startTime` first, then lexicographically smallest id. -/
def eventPriorityLt (a b : SpecEvent) : Bool :=
  decide (a.startTime < b.startTime)
    || (decide (a.startTime = b.startTime) && decide (a.id < b.id))

/-- Modelled from the spec: selection of the highest-priority active
high-stakes event, if any. -/
def selectTriggeringEvent (events : List SpecEvent) : Option SpecEvent :=
  (events.filter (fun e => e.highStakes)).foldl
    (fun acc e =>
      match acc with
      | none => some e
      | some b => if eventPriorityLt e b then some e else some b)
    none

/-- Modelled from the spec: `evaluateTrigger(state, vitalsReading,
activeEvents, now)` of the backend CycleStateMachine (not part of the source
tree).  Steps, in order: phase gate, cooling-period check (clearing it once
20 minutes have elapsed), decision-lock check, the `baseline > 0`
precondition, and the core contract
`shouldDisplay = (dropRatio <= 0.8) AND (a high-stakes event is active)`.
Over integers with a positive baseline, `current / baseline <= 0.8` is
exactly `10 * current <= 8 * baseline`.  On a positive result the state is
stamped with `lastBrakeDisplayTime = now`. -/
def evaluateTrigger (st : CycleState) (vitals : VitalsReading)
    (events : List SpecEvent) (nowMs : Int) : TriggerResult × CycleState :=
  let phase := phaseOfDay (specCurrentDay st nowMs)
  if phase ≠ Phase.interventionLogic then
    ({ shouldDisplay := false, triggeringEventId := none }, st)
  else
    let st1 :=
      if st.coolingPeriodActive && decide (coolingPeriodMs ≤ nowMs - st.coolingPeriodStart)
      then { st with coolingPeriodActive := false }
      else st
    if st1.coolingPeriodActive then
      ({ shouldDisplay := false, triggeringEventId := none }, st1)
    else if st1.decisionLockedForEvent then
      ({ shouldDisplay := false, triggeringEventId := none }, st1)
    else if vitals.baseline ≤ 0 then
      ({ shouldDisplay := false, triggeringEventId := none }, st1)
    else
      match selectTriggeringEvent events with
      | none => ({ shouldDisplay := false, triggeringEventId := none }, st1)
      | some ev =>
        if decide (10 * vitals.current ≤ 8 * vitals.baseline) then
          ({ shouldDisplay := true, triggeringEventId := some ev.id },
           { st1 with lastBrakeDisplayTime := nowMs })
        else
          ({ shouldDisplay := false, triggeringEventId := none }, st1)

/-- Modelled from the spec: the `DecisionRecord` emitted by `applyDecision`
(fields `timestamp`, `decisionType`, `day` only). -/
structure SpecDecisionRecord where
  timestamp : Int
  decisionType : DecisionType
  day : Int
deriving DecidableEq

/-- Modelled from the spec: the result of `applyDecision`. -/
structure DecisionOutcome where
  record : SpecDecisionRecord
  scheduledRecheck : Option Int
deriving DecidableEq

/-- Modelled from the spec: `applyDecision(state, decisionType, now)` of the
backend CycleStateMachine (not part of the source tree).  `Proceed` sets
`decisionLockedForEvent` and schedules nothing; `Delay` starts the cooling
period and schedules a recheck at `now + 20 minutes`. -/
def applyDecision (st : CycleState) (decisionType : DecisionType) (nowMs : Int) :
    DecisionOutcome × CycleState :=
  let record : SpecDecisionRecord :=
    { timestamp := nowMs, decisionType := decisionType, day := specCurrentDay st nowMs }
  match decisionType with
  | .proceed =>
    ({ record := record, scheduledRecheck := none },
     { st with decisionLockedForEvent := true })
  | .delay =>
    ({ record := record, scheduledRecheck := some (nowMs + coolingPeriodMs) },
     { st with coolingPeriodActive := true, coolingPeriodStart := nowMs })

/-- Helper: the day computed for a non-negative elapsed time lies in [1,7]. -/
lemma getCurrentDay_bounds (nowMs startMs : Int) (h : startMs ≤ nowMs) :
    1 ≤ getCurrentDay nowMs startMs ∧ getCurrentDay nowMs startMs ≤ 7 := by
  have hd : 0 ≤ Int.fdiv (nowMs - startMs) msPerDay :=
    Int.fdiv_nonneg (by omega) (by decide)
  have h0 : 0 ≤ Int.tmod (Int.fdiv (nowMs - startMs) msPerDay) 7 :=
    Int.tmod_nonneg _ hd
  have h7 : Int.tmod (Int.fdiv (nowMs - startMs) msPerDay) 7 < 7 :=
    Int.tmod_lt_of_pos _ (by decide)
  unfold getCurrentDay
  omega

/-- C3: for every `now >= cycleStartTime`, `getCurrentDay` is
`floor((now - cycleStartTime) / 1 day) mod 7`, plus 1, always lies in
[1,7], and at exactly seven elapsed days it wraps back to day 1. -/
theorem c3_currentDay_formula_range_wrap (nowMs startMs : Int) (h : startMs ≤ nowMs) :
    getCurrentDay nowMs startMs
        = Int.tmod (Int.fdiv (nowMs - startMs) msPerDay) 7 + 1
      ∧ 1 ≤ getCurrentDay nowMs startMs ∧ getCurrentDay nowMs startMs ≤ 7
      ∧ getCurrentDay (startMs + 7 * msPerDay) startMs = 1 := by
  obtain ⟨h1, h2⟩ := getCurrentDay_bounds nowMs startMs h
  refine ⟨rfl, h1, h2, ?_⟩
  unfold getCurrentDay
  have hdiff : startMs + 7 * msPerDay - startMs = 7 * msPerDay := by ring
  rw [hdiff, Int.mul_fdiv_cancel _ (by decide : msPerDay ≠ 0)]
  decide

/-- Witness for C3 at `now = 3`, `cycleStartTime = 0`. -/
theorem c3_witness :
    1 ≤ getCurrentDay 3 0 ∧ getCurrentDay 3 0 ≤ 7
      ∧ getCurrentDay (0 + 7 * msPerDay) 0 = 1 := by
  obtain ⟨-, h1, h2, h3⟩ := c3_currentDay_formula_range_wrap 3 0 (by decide)
  exact ⟨h1, h2, h3⟩

/-- C4: with `now` before `cycleStartTime` the code does not clamp: one hour
of clock skew yields day 0, and 36 hours yield day -1, contradicting the
documented day range [1,7]. -/
theorem c4_clockSkew_not_clamped :
    getCurrentDay (-3600000) 0 = 0 ∧ getCurrentDay (-129600000) 0 = -1 := by
  decide

/-- C6: `recordDecision` returns `re_trigger_time = now + 20 minutes`
(1200000 ms) exactly for a Delay decision, and none for Proceed. -/
theorem c6_delay_retrigger_exact (st : MockState) (nowMs : Int) :
    (recordDecision st DecisionType.delay nowMs).1.re_trigger_time
        = some (nowMs + 20 * 60 * 1000)
      ∧ (recordDecision st DecisionType.proceed nowMs).1.re_trigger_time = none :=
  ⟨rfl, rfl⟩

/-- C9 counterexample: the object persisted by `recordDecision` has no
`day` field; at the concrete input (Proceed, t = 0) its keys are not
[timestamp, decision_type, day]. -/
theorem c9_counterexample :
    (storedDecisionObject DecisionType.proceed 0).map Prod.fst
        ≠ ["timestamp", "decision_type", "day"]
      ∧ "day" ∉ (storedDecisionObject DecisionType.proceed 0).map Prod.fst := by
  decide

/-- C9 (amended): every persisted decision object has exactly the keys
`timestamp` and `decision_type`, and in particular no event content and no
physiological values; the state change is exactly one appended record. -/
theorem c9_record_fields (st : MockState) (d : DecisionType) (nowMs : Int) :
    (storedDecisionObject d nowMs).map Prod.fst = ["timestamp", "decision_type"]
      ∧ "day" ∉ (storedDecisionObject d nowMs).map Prod.fst
      ∧ "event_id" ∉ (storedDecisionObject d nowMs).map Prod.fst
      ∧ "event_content" ∉ (storedDecisionObject d nowMs).map Prod.fst
      ∧ "hrv_current" ∉ (storedDecisionObject d nowMs).map Prod.fst
      ∧ (recordDecision st d nowMs).2.decisions
          = st.decisions ++ [{ timestamp := nowMs, decision_type := d }] := by
  refine ⟨rfl, ?_, ?_, ?_, ?_, rfl⟩ <;> simp [storedDecisionObject]

/-- C2: on days 1, 2 and 7 the brake check of the mock client returns
`should_display = false` for every random draw, and the App auto-trigger
guard is false for every demo HRV state, event list and screen. -/
theorem c2_nonIntervention_days_never_display (st : MockState) (nowMs : Int)
    (rand rand2 : ℚ) (dm : Bool) (hrv : HRVData) (events : List CalendarEvent)
    (scr : Screen)
    (hday : getCurrentDay nowMs st.cycleStartMs = 1
      ∨ getCurrentDay nowMs st.cycleStartMs = 2
      ∨ getCurrentDay nowMs st.cycleStartMs = 7) :
    (checkBrakeScreen st nowMs rand rand2).1.should_display = false
      ∧ autoTriggerBrake dm hrv events (getCurrentDay nowMs st.cycleStartMs) scr
          = false := by
  constructor
  · rcases hday with h | h | h <;> simp [checkBrakeScreen, phaseOfDay, h]
  · rcases hday with h | h | h <;> simp [autoTriggerBrake, h]

/-- Witness for C2 at the constructor state with `now = 0` (day 1). -/
theorem c2_witness :
    (checkBrakeScreen (initMockState 0) 0 0 0).1.should_display = false
      ∧ autoTriggerBrake true initialHRV []
          (getCurrentDay 0 (initMockState 0).cycleStartMs) Screen.void = false :=
  c2_nonIntervention_days_never_display (initMockState 0) 0 0 0 true initialHRV []
    Screen.void (Or.inl (by decide))

/-- Helper: no client operation ever sets `coolingPeriodActive`. -/
lemma stepClient_cooling (st : MockState) (op : ClientOp)
    (h : st.coolingPeriodActive = false) :
    (stepClient st op).coolingPeriodActive = false := by
  cases op with
  | createUser n => simpa [stepClient, createUser, setUserId] using h
  | checkBrakeScreen n r r2 =>
    simp only [stepClient, checkBrakeScreen]
    split <;> simpa using h
  | recordDecision d n => simpa [stepClient, recordDecision] using h
  | recordReflection r n => simpa [stepClient, recordReflection] using h

/-- Helper: along every run of the client, `coolingPeriodActive` stays false. -/
lemma runClient_cooling (cycleStartMs : Int) (ops : List ClientOp) :
    (runClient cycleStartMs ops).coolingPeriodActive = false := by
  suffices h : ∀ st : MockState, st.coolingPeriodActive = false →
      (ops.foldl stepClient st).coolingPeriodActive = false from
    h _ rfl
  induction ops with
  | nil => intro st h; simpa using h
  | cons op ops ih =>
    intro st h
    exact ih _ (stepClient_cooling st op h)

/-- C10: after any sequence of client operations, `getState` reports
`cooling_period_active = false` and `decision_locked = false`. -/
theorem c10_cooling_and_lock_stay_false (cycleStartMs nowMs : Int)
    (ops : List ClientOp) :
    (getState (runClient cycleStartMs ops) nowMs).cooling_period_active = false
      ∧ (getState (runClient cycleStartMs ops) nowMs).decision_locked = false :=
  ⟨runClient_cooling cycleStartMs ops, rfl⟩

/-- C5: `recordReflection` appends exactly one reflection record and resets
the cycle unconditionally: the new state differs from the old one only in
`cycleStartMs` (set to now) and the appended record, the reported and the
recomputed current day are 1, the reset does not depend on the response
value, the reported cooling period and decision lock are false, and an
immediate brake check on the new cycle returns `should_display = false` for
every random draw. -/
theorem c5_reflection_resets_cycle (st : MockState) (r : ReflectionResponse)
    (nowMs : Int) (rand rand2 : ℚ) (hcool : st.coolingPeriodActive = false) :
    (recordReflection st r nowMs).2
        = { st with
              cycleStartMs := nowMs
              reflections := st.reflections ++ [{ timestamp := nowMs, response := r }] }
      ∧ (recordReflection st r nowMs).1.cycle_reset.current_day = 1
      ∧ getCurrentDay nowMs (recordReflection st r nowMs).2.cycleStartMs = 1
      ∧ (∀ r2 : ReflectionResponse,
          (recordReflection st r nowMs).2.cycleStartMs
            = (recordReflection st r2 nowMs).2.cycleStartMs)
      ∧ (getState (recordReflection st r nowMs).2 nowMs).cooling_period_active = false
      ∧ (getState (recordReflection st r nowMs).2 nowMs).decision_locked = false
      ∧ (checkBrakeScreen (recordReflection st r nowMs).2 nowMs rand rand2).1.should_display
          = false := by
  have hday : getCurrentDay nowMs nowMs = 1 := by
    simp [getCurrentDay, Int.zero_fdiv, Int.zero_tmod]
  refine ⟨rfl, rfl, hday, fun r2 => rfl, hcool, rfl, ?_⟩
  simp [checkBrakeScreen, recordReflection, phaseOfDay, hday]

/-- Witness for C5 at the constructor state, response Yes, `now = 5`. -/
theorem c5_witness :
    (initMockState 0).coolingPeriodActive = false
      ∧ (checkBrakeScreen (recordReflection (initMockState 0) ReflectionResponse.yes 5).2
          5 0 0).1.should_display = false :=
  ⟨rfl,
   (c5_reflection_resets_cycle (initMockState 0) ReflectionResponse.yes 5 0 0
      rfl).2.2.2.2.2.2⟩

/-- C1: on a day of the InterventionLogic phase (3-5), the auto-trigger of
`App.tsx` fires only when both core conditions hold for the demo state: the
HRV drop ratio `current / baseline` is at most 0.8 (the simulator drives
`change <= -20` exactly in this case) and at least one active event is
present, each event installed by the simulator being high-stakes; whenever
the drop ratio exceeds 0.8 or no event is active, the trigger is false. -/
theorem c1_trigger_requires_drop_and_event (dm : Bool) (hrv : HRVData)
    (events : List CalendarEvent) (day : Int) (scr : Screen)
    (hhrv : hrv = initialHRV ∨ ∃ p, hrv = setHRVData p)
    (hev : ∃ c s e, events = setCalendarEvents c s e)
    (_h3 : 3 ≤ day) (_h5 : day ≤ 5) :
    (autoTriggerBrake dm hrv events day scr = true →
      ((hrv.current : ℚ) / (hrv.baseline : ℚ) ≤ 8 / 10
        ∧ ∃ ev ∈ events, ev.riskLevel = RiskLevel.high))
      ∧ ((8 / 10 < (hrv.current : ℚ) / (hrv.baseline : ℚ)
          ∨ ¬ ∃ ev ∈ events, ev.riskLevel = RiskLevel.high) →
        autoTriggerBrake dm hrv events day scr = false) := by
  have hhrv2 : ∃ p, hrv = setHRVData p := by
    rcases hhrv with h | h
    · exact ⟨HRVPreset.normal, h⟩
    · exact h
  obtain ⟨p, rfl⟩ := hhrv2
  obtain ⟨c, s, e, rfl⟩ := hev
  have hratio : ((setHRVData p).current : ℚ) / ((setHRVData p).baseline : ℚ) ≤ 8 / 10
      ↔ (setHRVData p).change ≤ -20 := by
    cases p <;> norm_num [setHRVData]
  have hhigh : (∃ ev ∈ setCalendarEvents c s e, ev.riskLevel = RiskLevel.high)
      ↔ setCalendarEvents c s e ≠ [] := by
    cases c <;> simp [setCalendarEvents]
  constructor
  · intro h
    simp only [autoTriggerBrake, Bool.and_eq_true, decide_eq_true_eq] at h
    obtain ⟨⟨⟨⟨⟨-, hch⟩, hlen0⟩, -⟩, -⟩, -⟩ := h
    exact ⟨hratio.mpr hch, hhigh.mpr (List.length_pos.mp hlen0)⟩
  · intro h
    rcases h with h | h
    · have hch : ¬ (setHRVData p).change ≤ -20 :=
        fun hc => absurd (hratio.mpr hc) (not_le.mpr h)
      simp [autoTriggerBrake, hch]
    · have hnil : setCalendarEvents c s e = [] := by
        by_contra hne
        exact h (hhigh.mpr hne)
      rw [hnil]
      simp [autoTriggerBrake]

/-- Witness for C1 at demo mode, HRV preset critical (ratio 0.8), a board
meeting event, day 4, void screen. -/
theorem c1_witness :
    ((setHRVData HRVPreset.critical).current : ℚ)
        / ((setHRVData HRVPreset.critical).baseline : ℚ) ≤ 8 / 10
      ∧ ∃ ev ∈ setCalendarEvents EventChoice.board "09:00" "10:00",
          ev.riskLevel = RiskLevel.high :=
  (c1_trigger_requires_drop_and_event true (setHRVData HRVPreset.critical)
      (setCalendarEvents EventChoice.board "09:00" "10:00") 4 Screen.void
      (Or.inr ⟨HRVPreset.critical, rfl⟩)
      ⟨EventChoice.board, "09:00", "10:00", rfl⟩
      (by decide) (by decide)).1 (by decide)

/-- Helper: every evaluateTrigger path with the decision lock set returns
`shouldDisplay = false`. -/
lemma evaluateTrigger_of_locked (st : CycleState) (vitals : VitalsReading)
    (events : List SpecEvent) (nowMs : Int)
    (h : st.decisionLockedForEvent = true) :
    (evaluateTrigger st vitals events nowMs).1.shouldDisplay = false := by
  unfold evaluateTrigger
  by_cases hp : phaseOfDay (specCurrentDay st nowMs) ≠ Phase.interventionLogic
  · simp [hp]
  · by_cases hc : (st.coolingPeriodActive
        && decide (coolingPeriodMs ≤ nowMs - st.coolingPeriodStart)) = true
    · simp [hp, hc, h]
    · simp only [Bool.not_eq_true] at hc
      by_cases hca : st.coolingPeriodActive = true
      · have hB : ¬ coolingPeriodMs ≤ nowMs - st.coolingPeriodStart := by
          intro hb
          rw [hca] at hc
          simp [hb] at hc
        simp [hp, hca, hB, h]
      · simp only [Bool.not_eq_true] at hca
        simp [hp, hc, hca, h]

/-- C7: recording a Proceed decision while a high-stakes event is active
sets the per-event decision lock, and an immediate re-evaluation with
identical vitals, the same still-active events and the same timestamp
returns `shouldDisplay = false`. -/
theorem c7_proceed_locks_then_suppresses (st : CycleState)
    (vitals : VitalsReading) (events : List SpecEvent) (nowMs : Int)
    (_hactive : ∃ e ∈ events, e.highStakes = true) :
    (applyDecision st DecisionType.proceed nowMs).2.decisionLockedForEvent = true
      ∧ (evaluateTrigger (applyDecision st DecisionType.proceed nowMs).2
          vitals events nowMs).1.shouldDisplay = false :=
  ⟨rfl, evaluateTrigger_of_locked _ vitals events nowMs rfl⟩

/-- Witness for C7 with one active high-stakes event on day 4. -/
theorem c7_witness :
    (applyDecision
        { cycleStartTime := 0, coolingPeriodActive := false, coolingPeriodStart := 0,
          decisionLockedForEvent := false, lastBrakeDisplayTime := 0 }
        DecisionType.proceed (3 * msPerDay)).2.decisionLockedForEvent = true
      ∧ (evaluateTrigger
          (applyDecision
            { cycleStartTime := 0, coolingPeriodActive := false, coolingPeriodStart := 0,
              decisionLockedForEvent := false, lastBrakeDisplayTime := 0 }
            DecisionType.proceed (3 * msPerDay)).2
          { current := 40, baseline := 50 }
          [{ id := "e1", startTime := 0, highStakes := true }]
          (3 * msPerDay)).1.shouldDisplay = false :=
  c7_proceed_locks_then_suppresses _ _ _ _
    ⟨{ id := "e1", startTime := 0, highStakes := true }, by simp, rfl⟩

/-- Helper: characterization of a positive trigger evaluation. -/
lemma evaluateTrigger_display_iff (st : CycleState) (v : VitalsReading)
    (events : List SpecEvent) (nowMs : Int) :
    (evaluateTrigger st v events nowMs).1.shouldDisplay = true ↔
      (phaseOfDay (specCurrentDay st nowMs) = Phase.interventionLogic
        ∧ (st.coolingPeriodActive = false
            ∨ coolingPeriodMs ≤ nowMs - st.coolingPeriodStart)
        ∧ st.decisionLockedForEvent = false
        ∧ ¬ v.baseline ≤ 0
        ∧ (selectTriggeringEvent events).isSome = true
        ∧ 10 * v.current ≤ 8 * v.baseline) := by
  unfold evaluateTrigger
  by_cases hp : phaseOfDay (specCurrentDay st nowMs) = Phase.interventionLogic
  · by_cases hca : st.coolingPeriodActive = true
    · by_cases hB : coolingPeriodMs ≤ nowMs - st.coolingPeriodStart
      · by_cases hl : st.decisionLockedForEvent = true
        · simp [hp, hca, hB, hl]
        · simp only [Bool.not_eq_true] at hl
          by_cases hb0 : v.baseline ≤ 0
          · simp [hp, hca, hB, hl, hb0]
          · cases hsel : selectTriggeringEvent events with
            | none => simp [hp, hca, hB, hl, hb0, hsel]
            | some ev =>
              by_cases hr : 10 * v.current ≤ 8 * v.baseline
              · simp [hp, hca, hB, hl, hb0, hsel, hr]
              · simp [hp, hca, hB, hl, hb0, hsel, hr]
      · simp [hp, hca, hB]
    · simp only [Bool.not_eq_true] at hca
      by_cases hl : st.decisionLockedForEvent = true
      · simp [hp, hca, hl]
      · simp only [Bool.not_eq_true] at hl
        by_cases hb0 : v.baseline ≤ 0
        · simp [hp, hca, hl, hb0]
        · cases hsel : selectTriggeringEvent events with
          | none => simp [hp, hca, hl, hb0, hsel]
          | some ev =>
            by_cases hr : 10 * v.current ≤ 8 * v.baseline
            · simp [hp, hca, hl, hb0, hsel, hr]
            · simp [hp, hca, hl, hb0, hsel, hr]
  · simp [hp]

/-- Helper: trigger evaluation never changes the cycle start, the cooling
start or the decision lock, and after a positive evaluation the cooling
period is inactive. -/
lemma evaluateTrigger_fields (st : CycleState) (v : VitalsReading)
    (events : List SpecEvent) (nowMs : Int) :
    (evaluateTrigger st v events nowMs).2.cycleStartTime = st.cycleStartTime
      ∧ (evaluateTrigger st v events nowMs).2.coolingPeriodStart = st.coolingPeriodStart
      ∧ (evaluateTrigger st v events nowMs).2.decisionLockedForEvent
          = st.decisionLockedForEvent
      ∧ ((evaluateTrigger st v events nowMs).1.shouldDisplay = true →
          (evaluateTrigger st v events nowMs).2.coolingPeriodActive = false) := by
  unfold evaluateTrigger
  by_cases hp : phaseOfDay (specCurrentDay st nowMs) = Phase.interventionLogic
  · by_cases hca : st.coolingPeriodActive = true
    · by_cases hB : coolingPeriodMs ≤ nowMs - st.coolingPeriodStart
      · by_cases hl : st.decisionLockedForEvent = true
        · simp [hp, hca, hB, hl]
        · simp only [Bool.not_eq_true] at hl
          by_cases hb0 : v.baseline ≤ 0
          · simp [hp, hca, hB, hl, hb0]
          · cases hsel : selectTriggeringEvent events with
            | none => simp [hp, hca, hB, hl, hb0, hsel]
            | some ev =>
              by_cases hr : 10 * v.current ≤ 8 * v.baseline
              · simp [hp, hca, hB, hl, hb0, hsel, hr]
              · simp [hp, hca, hB, hl, hb0, hsel, hr]
      · simp [hp, hca, hB]
    · simp only [Bool.not_eq_true] at hca
      by_cases hl : st.decisionLockedForEvent = true
      · simp [hp, hca, hl]
      · simp only [Bool.not_eq_true] at hl
        by_cases hb0 : v.baseline ≤ 0
        · simp [hp, hca, hl, hb0]
        · cases hsel : selectTriggeringEvent events with
          | none => simp [hp, hca, hl, hb0, hsel]
          | some ev =>
            by_cases hr : 10 * v.current ≤ 8 * v.baseline
            · simp [hp, hca, hl, hb0, hsel, hr]
            · simp [hp, hca, hl, hb0, hsel, hr]
  · simp [hp]

/-- C8: trigger evaluation is a deterministic pure function of
(state, inputs, now) -- equal arguments give equal results -- and it is
idempotent: when an evaluation answers `shouldDisplay = true`, re-running it
on the state it produced, with unchanged inputs and timestamp, answers
`shouldDisplay = true` again. -/
theorem c8_deterministic_and_idempotent (st : CycleState) (v : VitalsReading)
    (events : List SpecEvent) (nowMs : Int) :
    (∀ st2 v2 events2 now2, st2 = st → v2 = v → events2 = events → now2 = nowMs →
        evaluateTrigger st2 v2 events2 now2 = evaluateTrigger st v events nowMs)
      ∧ ((evaluateTrigger st v events nowMs).1.shouldDisplay = true →
        (evaluateTrigger (evaluateTrigger st v events nowMs).2 v events
            nowMs).1.shouldDisplay = true) := by
  obtain ⟨hcs, hcps, hlock, hcool⟩ := evaluateTrigger_fields st v events nowMs
  refine ⟨fun st2 v2 e2 n2 h1 h2 h3 h4 => by rw [h1, h2, h3, h4], fun hdisp => ?_⟩
  obtain ⟨hph, hcl, hlk, hb, hsel, hr⟩ :=
    (evaluateTrigger_display_iff st v events nowMs).mp hdisp
  apply (evaluateTrigger_display_iff _ v events nowMs).mpr
  have hday : specCurrentDay (evaluateTrigger st v events nowMs).2 nowMs
      = specCurrentDay st nowMs := by
    unfold specCurrentDay
    rw [hcs]
  refine ⟨?_, Or.inl (hcool hdisp), ?_, hb, hsel, hr⟩
  · rw [hday]
    exact hph
  · rw [hlock]
    exact hlk

/-- Witness for C8 on day 4 with a 20 percent HRV drop and one active
high-stakes event. -/
theorem c8_witness :
    (evaluateTrigger
        { cycleStartTime := 0, coolingPeriodActive := false, coolingPeriodStart := 0,
          decisionLockedForEvent := false, lastBrakeDisplayTime := 0 }
        { current := 40, baseline := 50 }
        [{ id := "e1", startTime := 0, highStakes := true }]
        (3 * msPerDay)).1.shouldDisplay = true
      ∧ (evaluateTrigger
          (evaluateTrigger
            { cycleStartTime := 0, coolingPeriodActive := false, coolingPeriodStart := 0,
              decisionLockedForEvent := false, lastBrakeDisplayTime := 0 }
            { current := 40, baseline := 50 }
            [{ id := "e1", startTime := 0, highStakes := true }]
            (3 * msPerDay)).2
          { current := 40, baseline := 50 }
          [{ id := "e1", startTime := 0, highStakes := true }]
          (3 * msPerDay)).1.shouldDisplay = true :=
  ⟨by decide,
   (c8_deterministic_and_idempotent
      { cycleStartTime := 0, coolingPeriodActive := false, coolingPeriodStart := 0,
        decisionLockedForEvent := false, lastBrakeDisplayTime := 0 }
      { current := 40, baseline := 50 }
      [{ id := "e1", startTime := 0, highStakes := true }]
      (3 * msPerDay)).2 (by decide)⟩
